import Mathlib

set_option autoImplicit false

/-!
Shallow embedding of the search-indexing pipeline of `src/search/search.go`
(package `search` of pritunl-zero).

The Go package keeps four pieces of global mutable state: `client` (the
elastic backend client handle, `nil` when indexing is disabled), `buffer`
(the ingest buffer, a linked list of pending bulk index requests),
`failedBuffer` (the dead-letter buffer) and the fresh-identifier source
(`bson.NewObjectId()`).  We model that state as `SearchState`, with the
identifier source modelled as a counter (`nextId`): the external bson
library guarantees each generated ObjectId is fresh, which the counter
captures.  A constructed elastic client is modelled by the address list it
was built from.  All backend I/O (client construction, index existence
check, index creation, bulk submission) is external; its outcomes are
passed in explicitly (`Backend` for the configuration path, a success
predicate per attempt for the bulk path), and the calls the code issues
are returned as a `BackendCall` trace so that theorems can count them.
-/

namespace PritunlZero.Search

/-- Go struct `mapping` (search.go:29-34): one field declaration of the
mapping catalog. -/
structure Mapping where
  field : String
  type : String
  store : Bool
  index : String
deriving DecidableEq

/-- One pending bulk index request (`elastic.BulkIndexRequest` as built at
search.go:44-45): target index, document type, identifier generated at
enqueue time, and the document payload (of arbitrary type `α`). -/
structure IndexRequest (α : Type) where
  index : String
  typ : String
  id : Nat
  doc : α
deriving DecidableEq

/-- The package-level mutable state of `search.go` (search.go:20-27).
`client = none` is the Absent handle; `some addrs` is a client handle
bound to the address list `addrs`. -/
structure SearchState (α : Type) where
  client : Option (List String)
  buffer : List (IndexRequest α)
  failedBuffer : List (IndexRequest α)
  nextId : Nat
deriving DecidableEq

/-- `Index` (search.go:36-52): the ingestion entry point.  Reads the
client handle; if absent returns with the state unchanged (the record is
dropped); otherwise generates a fresh identifier and appends one request
at the back of the ingest buffer.  The Go function returns nothing and
has no error path, which the total return type mirrors. -/
def Index {α : Type} (index typ : String) (data : α) (s : SearchState α) :
    SearchState α :=
  match s.client with
  | none => s
  | some _ =>
    { s with
      buffer := s.buffer ++ [⟨index, typ, s.nextId, data⟩]
      nextId := s.nextId + 1 }

/-- Serialization of one mapping field in the index-creation payload
(search.go:71-89): a field of type "object" serializes to
`\x7b"enabled": false\x7d` regardless of its store/index flags; any other
field serializes to its type/store/index triple. -/
inductive FieldMapping where
  | disabled
  | typed (type : String) (store : Bool) (index : String)
deriving DecidableEq

/-- The serialization chosen for one `mapping` entry by the loop at
search.go:71-89. -/
def mappingProperty (m : Mapping) : FieldMapping :=
  if m.type = "object" then FieldMapping.disabled
  else FieldMapping.typed m.type m.store m.index

/-- Insertion into a Go `map[string]interface` modelled as an association
list: assigning to an existing key overwrites it, a new key is added. -/
def goMapInsert (props : List (String × FieldMapping)) (k : String)
    (v : FieldMapping) : List (String × FieldMapping) :=
  if props.any (fun p => p.1 = k) then
    props.map (fun p => if p.1 = k then (k, v) else p)
  else
    props ++ [(k, v)]

/-- The `properties` map built by the loop at search.go:69-89. -/
def buildProperties (mappings : List Mapping) : List (String × FieldMapping) :=
  mappings.foldl (fun props m => goMapInsert props m.field (mappingProperty m)) []

/-- The `data` value serialized as the index-creation body
(search.go:91-101): `\x7b"mappings": \x7b<typ>: \x7b"properties": ...\x7d\x7d\x7d`. -/
structure CreatePayload where
  mappings : List (String × List (String × FieldMapping))
deriving DecidableEq

/-- The index-creation body built by `putIndex` for document type `typ`
(search.go:91-101): the `mappings` object has the single key `typ`. -/
def putIndexPayload (typ : String) (mappings : List Mapping) : CreatePayload :=
  ⟨[(typ, buildProperties mappings)]⟩

/-- Outcomes of the external elastic calls made on the configuration
path, supplied by the environment: whether `elastic.NewClient` fails,
what `IndexExists` reports (`none` models the call itself erroring), and
whether `CreateIndex` fails. -/
structure Backend where
  newClientErr : Bool
  indexExists : Option Bool
  createIndexErr : Bool
deriving DecidableEq

/-- A call issued to the elastic backend, recorded so theorems can count
constructions and creations. -/
inductive BackendCall where
  | newClientCall (addrs : List String)
  | indexExistsCall (index : String)
  | createIndexCall (index : String) (body : CreatePayload)
deriving DecidableEq

def isNewClientCall : BackendCall → Bool
  | BackendCall.newClientCall _ => true
  | _ => false

def isCreateIndexCall : BackendCall → Bool
  | BackendCall.createIndexCall _ _ => true
  | _ => false

/-- `newClient` (search.go:114-131): with an empty address list it
returns the nil client and no error without calling `elastic.NewClient`;
otherwise it constructs a client bound to the addresses, propagating a
construction failure as a wrapped error. -/
def newClient (env : Backend) (addrs : List String) :
    Except String (Option (List String)) × List BackendCall :=
  if addrs = [] then (Except.ok none, [])
  else if env.newClientErr then
    (Except.error "search: Failed to create elastic client",
      [BackendCall.newClientCall addrs])
  else (Except.ok (some addrs), [BackendCall.newClientCall addrs])

/-- `putIndex` (search.go:54-112): check whether the index exists
(erroring out if the check fails); if it exists return with no further
call; otherwise build the mapping payload and issue one CreateIndex
call, propagating its failure. -/
def putIndex (env : Backend) (index typ : String) (mappings : List Mapping) :
    Except String Unit × List BackendCall :=
  match env.indexExists with
  | none =>
    (Except.error "search: Failed to check elastic index",
      [BackendCall.indexExistsCall index])
  | some true => (Except.ok (), [BackendCall.indexExistsCall index])
  | some false =>
    if env.createIndexErr then
      (Except.error "search: Failed to create elastic index",
        [BackendCall.indexExistsCall index,
         BackendCall.createIndexCall index (putIndexPayload typ mappings)])
    else
      (Except.ok (),
        [BackendCall.indexExistsCall index,
         BackendCall.createIndexCall index (putIndexPayload typ mappings)])

/-- The built-in mapping catalog assembled in `update`
(search.go:155-221), in order, with the exact flags of the source (a Go
field left unset is its zero value: `false` / ""). -/
def builtinMappings : List Mapping :=
  [⟨"user", "keyword", false, "analyzed"⟩,
   ⟨"session", "keyword", false, "analyzed"⟩,
   ⟨"address", "ip", false, "analyzed"⟩,
   ⟨"timestamp", "date", false, "analyzed"⟩,
   ⟨"scheme", "keyword", false, "analyzed"⟩,
   ⟨"host", "keyword", false, "analyzed"⟩,
   ⟨"path", "keyword", false, "analyzed"⟩,
   ⟨"query", "object", false, ""⟩,
   ⟨"header", "object", false, ""⟩,
   ⟨"body", "text", false, "no"⟩]

/-- `update` (search.go:143-232): reconfigure the client handle from an
address list.  Construction failure, a nil client (empty address list),
or a `putIndex` failure all leave the global `client` nil; only when
every step succeeds is the newly constructed client published. -/
def update {α : Type} (env : Backend) (addrs : List String) (s : SearchState α) :
    Except String Unit × SearchState α × List BackendCall :=
  match newClient env addrs with
  | (Except.error e, calls) => (Except.error e, { s with client := none }, calls)
  | (Except.ok none, calls) => (Except.ok (), { s with client := none }, calls)
  | (Except.ok (some clnt), calls) =>
    match putIndex env "zero-requests" "request" builtinMappings with
    | (Except.error e, calls2) =>
      (Except.error e, { s with client := none }, calls ++ calls2)
    | (Except.ok (), calls2) =>
      (Except.ok (), { s with client := some clnt }, calls ++ calls2)

/-- The byte string fed to the md5 state by `hashAddresses`
(search.go:136-138): each address written in order, i.e. the plain
concatenation with no separator or length prefix. -/
def hashInput (addrs : List String) : String :=
  addrs.foldl (fun acc addr => acc ++ addr) ""

/-- `hashAddresses` (search.go:133-141): the md5 digest of the written
stream.  md5 itself is external (`crypto/md5`); it is passed in as an
arbitrary function, which suffices because it is deterministic: equal
inputs give equal digests. -/
def hashAddresses (md5Fn : String → List Nat) (addrs : List String) : List Nat :=
  md5Fn (hashInput addrs)

/-- The config watcher's loop state: the last successfully applied
fingerprint plus the shared search state. -/
structure WatcherState (α : Type) where
  hash : List Nat
  search : SearchState α
deriving DecidableEq

/-- The fingerprint `watchSearch` starts from (search.go:235): the hash
of the empty address list. -/
def initialWatcherHash (md5Fn : String → List Nat) : List Nat :=
  hashAddresses md5Fn []

/-- One iteration of the `watchSearch` loop (search.go:237-255): read the
configured addresses, fingerprint them, and if the fingerprint differs
from the stored one attempt `update`; adopt the new fingerprint only when
`update` succeeded (on failure the code logs, sleeps and `continue`s
without the `hash = newHash` assignment). -/
def watchIteration {α : Type} (md5Fn : String → List Nat) (env : Backend)
    (addrs : List String) (w : WatcherState α) :
    WatcherState α × List BackendCall :=
  let newHash := hashAddresses md5Fn addrs
  if w.hash ≠ newHash then
    match update env addrs w.search with
    | (Except.error _, s', calls) => (⟨w.hash, s'⟩, calls)
    | (Except.ok _, s', calls) => (⟨newHash, s'⟩, calls)
  else (w, [])

/-- A finite prefix of the `watchSearch` loop: each step supplies that
iteration's configured addresses and backend outcomes; the issued
backend calls are concatenated in order. -/
def watchRun {α : Type} (md5Fn : String → List Nat) :
    List (Backend × List String) → WatcherState α →
    WatcherState α × List BackendCall
  | [], w => (w, [])
  | (env, addrs) :: steps, w =>
    let r := watchIteration md5Fn env addrs w
    let rest := watchRun md5Fn steps r.1
    (rest.1, r.2 ++ rest.2)

/-- The retry loop of `worker` (search.go:282-297): `bulkOk i` tells
whether attempt number `i` (0-based) succeeds.  Returns the number of
bulk submissions issued and whether the loop ended in success.  Each
failed attempt sleeps and continues; the first success breaks. -/
def retryLoop (bulkOk : Nat → Bool) : Nat → Nat → Nat × Bool
  | 0, _ => (0, false)
  | fuel + 1, i =>
    if bulkOk i then (1, true)
    else
      let r := retryLoop bulkOk fuel (i + 1)
      (r.1 + 1, r.2)

/-- One iteration of the `worker` loop (search.go:258-311): drain the
ingest buffer unconditionally (swap in a fresh list under the lock),
then, if the client handle is present and the batch nonempty, attempt
bulk delivery up to 10 times; if every attempt failed append the whole
batch to the dead-letter buffer.  The second component lists the payload
of every bulk submission issued during the tick: each attempt submits
the batch in insertion order (search.go:283-289). -/
def workerTick {α : Type} (bulkOk : Nat → Bool) (s : SearchState α) :
    SearchState α × List (List (IndexRequest α)) :=
  let requests := s.buffer
  let drained : SearchState α := { s with buffer := [] }
  match s.client with
  | none => (drained, [])
  | some _ =>
    if requests.isEmpty then (drained, [])
    else
      let r := retryLoop bulkOk 10 0
      if r.2 then (drained, List.replicate r.1 requests)
      else
        ({ drained with failedBuffer := drained.failedBuffer ++ requests },
          List.replicate r.1 requests)

/-- An interleaving of calls to the ingestion entry point and flush
ticks, executed against the shared state. -/
inductive Op (α : Type) where
  | enq (index typ : String) (data : α)
  | tick (bulkOk : Nat → Bool)

/-- Run a sequence of operations, collecting every bulk submission the
flush worker issues, in order. -/
def runOps {α : Type} : List (Op α) → SearchState α →
    SearchState α × List (List (IndexRequest α))
  | [], s => (s, [])
  | Op.enq i t d :: ops, s => runOps ops (Index i t d s)
  | Op.tick ok :: ops, s =>
    let r := workerTick ok s
    let rest := runOps ops r.1
    (rest.1, r.2 ++ rest.2)

/-- The requests an operation sequence enqueues, in call order, with the
identifiers the counter assigns starting from `n`. -/
def enqueuedRequests {α : Type} : List (Op α) → Nat → List (IndexRequest α)
  | [], _ => []
  | Op.enq i t d :: ops, n => ⟨i, t, n, d⟩ :: enqueuedRequests ops (n + 1)
  | Op.tick _ :: ops, n => enqueuedRequests ops n

/-- Number of enqueue operations in a sequence. -/
def countEnq {α : Type} : List (Op α) → Nat
  | [] => 0
  | Op.enq _ _ _ :: ops => countEnq ops + 1
  | Op.tick _ :: ops => countEnq ops

/-- Every flush tick in the sequence succeeds on its first bulk attempt
(the backend never errors). -/
def ticksOk {α : Type} : List (Op α) → Prop
  | [] => True
  | Op.enq _ _ _ :: ops => ticksOk ops
  | Op.tick ok :: ops => ok 0 = true ∧ ticksOk ops

/-! Helper lemmas. -/

theorem retryLoop_fst_le (bulkOk : Nat → Bool) :
    ∀ (fuel i : Nat), (retryLoop bulkOk fuel i).1 ≤ fuel := by
  intro fuel
  induction fuel with
  | zero => intro i; simp [retryLoop]
  | succ n ih =>
    intro i
    by_cases h : bulkOk i
    · simp [retryLoop, h]
    · have := ih (i + 1)
      simp only [retryLoop, h]
      simp
      omega

theorem retryLoop_all_fail (bulkOk : Nat → Bool) :
    ∀ (fuel i : Nat), (∀ j, j < fuel → bulkOk (i + j) = false) →
      retryLoop bulkOk fuel i = (fuel, false) := by
  intro fuel
  induction fuel with
  | zero => intro i _; simp [retryLoop]
  | succ n ih =>
    intro i h
    have h0 : bulkOk i = false := by simpa using h 0 (by omega)
    have hrec := ih (i + 1) (fun j hj => by
      rw [show i + 1 + j = i + (j + 1) by omega]
      exact h (j + 1) (by omega))
    simp [retryLoop, h0, hrec]

theorem retryLoop_first_success (bulkOk : Nat → Bool) :
    ∀ (fuel k i : Nat), k < fuel → bulkOk (i + k) = true →
      (∀ j, j < k → bulkOk (i + j) = false) →
      retryLoop bulkOk fuel i = (k + 1, true) := by
  intro fuel
  induction fuel with
  | zero => intro k i hk; omega
  | succ n ih =>
    intro k i hk hks hmin
    cases k with
    | zero =>
      have h0 : bulkOk i = true := by simpa using hks
      simp [retryLoop, h0]
    | succ m =>
      have h0 : bulkOk i = false := by simpa using hmin 0 (by omega)
      have hrec := ih m (i + 1) (by omega)
        (by rw [show i + 1 + m = i + (m + 1) by omega]; exact hks)
        (fun j hj => by
          rw [show i + 1 + j = i + (j + 1) by omega]
          exact hmin (j + 1) (by omega))
      simp [retryLoop, h0, hrec]

theorem workerTick_skip {α : Type} (bulkOk : Nat → Bool) (s : SearchState α)
    (h : s.client = none ∨ s.buffer = []) :
    workerTick bulkOk s = ({ s with buffer := [] }, []) := by
  rcases h with h | h
  · simp [workerTick, h]
  · cases hc : s.client <;> simp [workerTick, hc, h]

theorem workerTick_buffer_after {α : Type} (bulkOk : Nat → Bool)
    (s : SearchState α) : (workerTick bulkOk s).1.buffer = [] := by
  unfold workerTick
  cases hc : s.client
  · simp
  · simp only
    split
    · simp
    · split <;> simp

theorem workerTick_first_try {α : Type} (bulkOk : Nat → Bool)
    (s : SearchState α) (c : List String) (hc : s.client = some c)
    (h0 : bulkOk 0 = true) :
    workerTick bulkOk s =
      ({ s with buffer := [] },
        if s.buffer.isEmpty then [] else [s.buffer]) := by
  have hr : retryLoop bulkOk 10 0 = (1, true) := by
    simpa using retryLoop_first_success bulkOk 10 0 0 (by omega)
      (by simpa using h0) (fun j hj => absurd hj (by omega))
  by_cases hb : s.buffer.isEmpty
  · simp [workerTick, hc, hb]
  · simp [workerTick, hc, hb, hr]

theorem Index_absent {α : Type} (index typ : String) (d : α)
    (s : SearchState α) (h : s.client = none) : Index index typ d s = s := by
  simp [Index, h]

theorem Index_present {α : Type} (index typ : String) (d : α)
    (s : SearchState α) (c : List String) (h : s.client = some c) :
    Index index typ d s =
      { s with
        buffer := s.buffer ++ [⟨index, typ, s.nextId, d⟩]
        nextId := s.nextId + 1 } := by
  simp [Index, h]

theorem runOps_append {α : Type} :
    ∀ (a b : List (Op α)) (s : SearchState α),
      runOps (a ++ b) s =
        ((runOps b (runOps a s).1).1,
          (runOps a s).2 ++ (runOps b (runOps a s).1).2) := by
  intro a
  induction a with
  | nil => intro b s; simp [runOps]
  | cons op a ih =>
    intro b s
    cases op with
    | enq i t d => simp [runOps, ih]
    | tick ok => simp [runOps, ih]

theorem runOps_present {α : Type} (c : List String) :
    ∀ (ops : List (Op α)) (s : SearchState α), s.client = some c →
      ticksOk ops →
      (runOps ops s).1.client = some c ∧
      (runOps ops s).1.failedBuffer = s.failedBuffer ∧
      (runOps ops s).1.nextId = s.nextId + countEnq ops ∧
      (runOps ops s).2.flatten ++ (runOps ops s).1.buffer =
        s.buffer ++ enqueuedRequests ops s.nextId := by
  intro ops
  induction ops with
  | nil => intro s hc _; simp [runOps, enqueuedRequests, countEnq, hc]
  | cons op ops ih =>
    intro s hc hok
    cases op with
    | enq i t d =>
      have hI := Index_present i t d s c hc
      have ihh := ih (Index i t d s) (by rw [hI]; exact hc) hok
      rw [hI] at ihh
      simp only [runOps, hI]
      refine ⟨ihh.1, by simpa using ihh.2.1, ?_, ?_⟩
      · have := ihh.2.2.1
        simp at this
        simp [countEnq, this]
        omega
      · have := ihh.2.2.2
        simp at this
        simp [enqueuedRequests, this, List.append_assoc]
    | tick ok =>
      obtain ⟨h0, hoks⟩ := hok
      have ht := workerTick_first_try ok s c hc h0
      have ihh := ih { s with buffer := [] } hc hoks
      simp only [runOps, ht]
      refine ⟨ihh.1, by simpa using ihh.2.1, ?_, ?_⟩
      · have := ihh.2.2.1
        simp at this
        simpa [countEnq] using this
      · have := ihh.2.2.2
        simp at this
        have hflat :
            (if s.buffer.isEmpty then ([] : List (List (IndexRequest α)))
              else [s.buffer]).flatten = s.buffer := by
          cases s.buffer <;> simp
        simp [List.flatten_append, hflat, List.append_assoc, this,
          enqueuedRequests]

theorem enqueuedRequests_map_id {α : Type} :
    ∀ (ops : List (Op α)) (n : Nat),
      (enqueuedRequests ops n).map IndexRequest.id =
        List.range' n (countEnq ops) := by
  intro ops
  induction ops with
  | nil => intro n; simp [enqueuedRequests, countEnq]
  | cons op ops ih =>
    intro n
    cases op with
    | enq i t d => simp [enqueuedRequests, countEnq, ih, List.range'_succ]
    | tick ok => simp [enqueuedRequests, countEnq, ih]

theorem countP_mem_of_flatten_count_one {β : Type} [DecidableEq β] :
    ∀ (l : List (List β)) (x : β), l.flatten.count x = 1 →
      l.countP (fun b => decide (x ∈ b)) = 1 := by
  intro l
  induction l with
  | nil => intro x h; simp at h
  | cons b l ih =>
    intro x h
    rw [List.flatten_cons, List.count_append] at h
    rcases Nat.eq_zero_or_pos (b.count x) with h0 | hpos
    · have hnb : x ∉ b := List.count_eq_zero.mp h0
      rw [List.countP_cons_of_neg _ _ (by simpa using hnb)]
      exact ih x (by omega)
    · have hxb : x ∈ b := List.count_pos_iff.mp hpos
      have hj0 : l.flatten.count x = 0 := by omega
      rw [List.countP_cons_of_pos _ _ (by simpa using hxb)]
      have hl0 : l.countP (fun b => decide (x ∈ b)) = 0 := by
        rw [List.countP_eq_zero]
        intro a ha
        simp only [decide_eq_true_eq]
        intro hxa
        rw [List.count_eq_zero] at hj0
        exact hj0 (List.mem_flatten.mpr ⟨a, ha, hxa⟩)
      omega

/-! Claim theorems. -/

/-- Claim C1: on every flush-worker tick the ingest buffer is drained
unconditionally (it is empty after the tick regardless of whether the
handle is present), and when the handle is absent or the drained batch
is empty the tick ends with no bulk submission and no re-queueing: the
resulting state is exactly the old state with an emptied ingest buffer,
so a non-empty batch drained while the handle is absent is discarded —
it is not in the buffer, not in the dead-letter buffer, and in no
submission. -/
theorem search_C1_unconditional_drain_discard {α : Type}
    (bulkOk : Nat → Bool) (s : SearchState α) :
    (workerTick bulkOk s).1.buffer = [] ∧
    (s.client = none ∨ s.buffer = [] →
      workerTick bulkOk s = ({ s with buffer := [] }, [])) :=
  ⟨workerTick_buffer_after bulkOk s, workerTick_skip bulkOk s⟩

theorem search_C1_witness :
    (workerTick (fun _ => true)
      (⟨none, [⟨"zero-requests", "request", 0, 7⟩], [], 1⟩ :
        SearchState Nat)).1.buffer = [] ∧
    workerTick (fun _ => true)
      (⟨none, [⟨"zero-requests", "request", 0, 7⟩], [], 1⟩ :
        SearchState Nat) = (⟨none, [], [], 1⟩, []) :=
  ⟨(search_C1_unconditional_drain_discard _ _).1,
   (search_C1_unconditional_drain_discard _ _).2 (Or.inl rfl)⟩

/-- Claim C5: the ingestion entry point is a total function with no
error channel; with the handle absent it returns the state unchanged
(the record is dropped, both buffers untouched), and with the handle
present it appends exactly one request — carrying the given index name,
document type and a freshly generated identifier — at the back of the
ingest buffer, leaving everything else unchanged. -/
theorem search_C5_enqueue_contract {α : Type} (index typ : String) (d : α)
    (s : SearchState α) :
    (s.client = none → Index index typ d s = s) ∧
    (∀ c, s.client = some c →
      Index index typ d s =
        { s with
          buffer := s.buffer ++ [⟨index, typ, s.nextId, d⟩]
          nextId := s.nextId + 1 }) :=
  ⟨Index_absent index typ d s, fun c hc => Index_present index typ d s c hc⟩

theorem search_C5_witness :
    Index "zero-requests" "request" 5
        (⟨none, [], [], 0⟩ : SearchState Nat) = ⟨none, [], [], 0⟩ ∧
    Index "zero-requests" "request" 5
        (⟨some ["a"], [], [], 0⟩ : SearchState Nat) =
      ⟨some ["a"], [⟨"zero-requests", "request", 0, 5⟩], [], 1⟩ :=
  ⟨(search_C5_enqueue_contract "zero-requests" "request" 5
      ⟨none, [], [], 0⟩).1 rfl,
   (search_C5_enqueue_contract "zero-requests" "request" 5
      ⟨some ["a"], [], [], 0⟩).2 ["a"] rfl⟩

/-- Claim C10: the ingestion entry point validates neither the index
name nor the document type: for arbitrary strings (empty or naming an
index that was never provisioned), with the handle present the request
is buffered and appears in the next successful bulk submission under
exactly the given index name and type. -/
theorem search_C10_no_name_validation {α : Type} (index typ : String)
    (d : α) (s : SearchState α) (c : List String) (hc : s.client = some c)
    (bulkOk : Nat → Bool) (h0 : bulkOk 0 = true) :
    (Index index typ d s).buffer =
      s.buffer ++ [⟨index, typ, s.nextId, d⟩] ∧
    (workerTick bulkOk (Index index typ d s)).2 =
      [s.buffer ++ [⟨index, typ, s.nextId, d⟩]] := by
  have hI := Index_present index typ d s c hc
  constructor
  · rw [hI]
  · have ht := workerTick_first_try bulkOk (Index index typ d s) c
      (by rw [hI]; exact hc) h0
    rw [ht, hI]
    simp

theorem search_C10_witness :
    (Index "" "" 3 (⟨some ["a"], [], [], 0⟩ : SearchState Nat)).buffer =
      [⟨"", "", 0, 3⟩] ∧
    (workerTick (fun _ => true)
      (Index "" "" 3 (⟨some ["a"], [], [], 0⟩ : SearchState Nat))).2 =
      [[⟨"", "", 0, 3⟩]] :=
  search_C10_no_name_validation "" "" 3 ⟨some ["a"], [], [], 0⟩ ["a"] rfl
    (fun _ => true) rfl

/-- Claim C7: the index-creation payload built for the built-in catalog
has the shape mappings → "request" → properties (issued for index
"zero-requests") and contains exactly the ten declared fields with the
stated serializations: every field of type "object" serializes to the
disabled form irrespective of its store/index flags, and every other
field to its type/store/index triple. -/
theorem search_C7_builtin_payload :
    putIndexPayload "request" builtinMappings =
      ⟨[("request",
        [("user", FieldMapping.typed "keyword" false "analyzed"),
         ("session", FieldMapping.typed "keyword" false "analyzed"),
         ("address", FieldMapping.typed "ip" false "analyzed"),
         ("timestamp", FieldMapping.typed "date" false "analyzed"),
         ("scheme", FieldMapping.typed "keyword" false "analyzed"),
         ("host", FieldMapping.typed "keyword" false "analyzed"),
         ("path", FieldMapping.typed "keyword" false "analyzed"),
         ("query", FieldMapping.disabled),
         ("header", FieldMapping.disabled),
         ("body", FieldMapping.typed "text" false "no")])]⟩ ∧
    (∀ (f : String) (st : Bool) (ix : String),
      mappingProperty ⟨f, "object", st, ix⟩ = FieldMapping.disabled) ∧
    (update ⟨false, some false, false⟩ ["backend-1"]
        (⟨none, [], [], 0⟩ : SearchState Nat)).2.2 =
      [BackendCall.newClientCall ["backend-1"],
       BackendCall.indexExistsCall "zero-requests",
       BackendCall.createIndexCall "zero-requests"
         (putIndexPayload "request" builtinMappings)] := by
  refine ⟨by decide, ?_, by decide⟩
  intro f st ix
  simp [mappingProperty]

/-- Claim C8: index provisioning first issues the existence check, and
issues a creation call exactly when that check reports the index
missing; when the index already exists it returns no error and makes no
creation (or any other) call, so an existing index's mappings are never
modified. -/
theorem search_C8_existence_guard (env : Backend) (index typ : String)
    (mappings : List Mapping) :
    ((putIndex env index typ mappings).2.head? =
      some (BackendCall.indexExistsCall index)) ∧
    (env.indexExists = some true →
      putIndex env index typ mappings =
        (Except.ok (), [BackendCall.indexExistsCall index])) ∧
    ((putIndex env index typ mappings).2.any isCreateIndexCall = true ↔
      env.indexExists = some false) := by
  rcases henv : env.indexExists with _ | b
  · simp [putIndex, henv, isCreateIndexCall]
  · cases b <;> simp only [putIndex, henv] <;>
      (try split) <;> simp [isCreateIndexCall]

theorem search_C8_witness :
    ((putIndex ⟨false, some true, false⟩ "zero-requests" "request"
        builtinMappings).2.head? =
      some (BackendCall.indexExistsCall "zero-requests")) ∧
    putIndex ⟨false, some true, false⟩ "zero-requests" "request"
        builtinMappings =
      (Except.ok (), [BackendCall.indexExistsCall "zero-requests"]) ∧
    ((putIndex ⟨false, some true, false⟩ "zero-requests" "request"
        builtinMappings).2.any isCreateIndexCall = true ↔
      (⟨false, some true, false⟩ : Backend).indexExists = some false) :=
  ⟨(search_C8_existence_guard ⟨false, some true, false⟩ "zero-requests"
      "request" builtinMappings).1,
   (search_C8_existence_guard ⟨false, some true, false⟩ "zero-requests"
      "request" builtinMappings).2.1 rfl,
   (search_C8_existence_guard ⟨false, some true, false⟩ "zero-requests"
      "request" builtinMappings).2.2⟩

/-- Claim C9: the fingerprint hashes the plain separator-free
concatenation of the address strings, so it is not injective: the
distinct lists ["ab","c"] and ["a","bc"], and likewise ["x"] and
["x",""], feed the identical byte stream to md5 and get equal
fingerprints (for every digest function, md5 being deterministic); a
watcher iteration whose stored fingerprint equals the newly configured
list's fingerprint performs no reconfiguration attempt and no backend
call. -/
theorem search_C9_fingerprint_not_injective (md5Fn : String → List Nat) :
    hashInput ["ab", "c"] = hashInput ["a", "bc"] ∧
    hashAddresses md5Fn ["ab", "c"] = hashAddresses md5Fn ["a", "bc"] ∧
    hashInput ["x"] = hashInput ["x", ""] ∧
    hashAddresses md5Fn ["x"] = hashAddresses md5Fn ["x", ""] ∧
    (∀ (α : Type) (env : Backend) (w : WatcherState α),
      w.hash = hashAddresses md5Fn ["ab", "c"] →
      watchIteration md5Fn env ["a", "bc"] w = (w, [])) := by
  have h1 : hashInput ["ab", "c"] = hashInput ["a", "bc"] := by decide
  have h2 : hashInput ["x"] = hashInput ["x", ""] := by decide
  have ha1 : hashAddresses md5Fn ["ab", "c"] =
      hashAddresses md5Fn ["a", "bc"] := by
    unfold hashAddresses
    rw [h1]
  have ha2 : hashAddresses md5Fn ["x"] = hashAddresses md5Fn ["x", ""] := by
    unfold hashAddresses
    rw [h2]
  refine ⟨h1, ha1, h2, ha2, ?_⟩
  intro α env w hw
  simp [watchIteration, hw, ha1]

theorem search_C9_witness :
    hashInput ["ab", "c"] = hashInput ["a", "bc"] ∧
    hashAddresses (fun str => [str.length]) ["ab", "c"] =
      hashAddresses (fun str => [str.length]) ["a", "bc"] ∧
    hashInput ["x"] = hashInput ["x", ""] ∧
    hashAddresses (fun str => [str.length]) ["x"] =
      hashAddresses (fun str => [str.length]) ["x", ""] ∧
    watchIteration (fun str => [str.length]) ⟨false, some false, false⟩
        ["a", "bc"]
        (⟨hashAddresses (fun str => [str.length]) ["ab", "c"],
          ⟨none, [], [], 0⟩⟩ : WatcherState Nat) =
      (⟨hashAddresses (fun str => [str.length]) ["ab", "c"],
        ⟨none, [], [], 0⟩⟩, []) :=
  ⟨(search_C9_fingerprint_not_injective (fun str => [str.length])).1,
   (search_C9_fingerprint_not_injective (fun str => [str.length])).2.1,
   (search_C9_fingerprint_not_injective (fun str => [str.length])).2.2.1,
   (search_C9_fingerprint_not_injective (fun str => [str.length])).2.2.2.1,
   (search_C9_fingerprint_not_injective
      (fun str => [str.length])).2.2.2.2 Nat ⟨false, some false, false⟩
      ⟨hashAddresses (fun str => [str.length]) ["ab", "c"],
        ⟨none, [], [], 0⟩⟩ rfl⟩

theorem ticksOk_append {α : Type} :
    ∀ (a b : List (Op α)), ticksOk a → ticksOk b → ticksOk (a ++ b) := by
  intro a
  induction a with
  | nil => intro b _ hb; simpa using hb
  | cons op a ih =>
    intro b ha hb
    cases op with
    | enq i t d => exact ih b ha hb
    | tick ok => exact ⟨ha.1, ih b ha.2 hb⟩

theorem enqueuedRequests_append {α : Type} :
    ∀ (a b : List (Op α)) (n : Nat),
      enqueuedRequests (a ++ b) n =
        enqueuedRequests a n ++ enqueuedRequests b (n + countEnq a) := by
  intro a
  induction a with
  | nil => intro b n; simp [enqueuedRequests, countEnq]
  | cons op a ih =>
    intro b n
    cases op with
    | enq i t d =>
      simp [enqueuedRequests, countEnq, ih]
      rw [show n + (countEnq a + 1) = n + 1 + countEnq a by omega]
    | tick ok => simp [enqueuedRequests, countEnq, ih]

/-- Claim C2: for every sequence of enqueues and flush ticks executed
with the handle present and every bulk submission succeeding, followed
by a final flush tick: the concatenation of all issued bulk submissions
is exactly the list of enqueued records in enqueue order (so per-batch
insertion order is preserved in the payloads), the ingest buffer ends
empty and the dead-letter buffer untouched, the identifiers are the
consecutive counter values from enqueue time (distinct even for
identical document content), and each enqueued record occurs in exactly
one bulk submission. -/
theorem search_C2_exactly_once_delivery {α : Type} [DecidableEq α]
    (c : List String) (ops : List (Op α)) (bulkOk : Nat → Bool)
    (s : SearchState α) (hc : s.client = some c) (hb : s.buffer = [])
    (hops : ticksOk ops) (h0 : bulkOk 0 = true) :
    ((runOps (ops ++ [Op.tick bulkOk]) s).2.flatten =
      enqueuedRequests ops s.nextId) ∧
    ((runOps (ops ++ [Op.tick bulkOk]) s).1.buffer = []) ∧
    ((runOps (ops ++ [Op.tick bulkOk]) s).1.failedBuffer =
      s.failedBuffer) ∧
    ((enqueuedRequests ops s.nextId).map IndexRequest.id =
      List.range' s.nextId (countEnq ops)) ∧
    (∀ r, r ∈ enqueuedRequests ops s.nextId →
      (runOps (ops ++ [Op.tick bulkOk]) s).2.countP
        (fun batch => decide (r ∈ batch)) = 1) := by
  have hts : ticksOk (ops ++ [Op.tick bulkOk]) :=
    ticksOk_append ops [Op.tick bulkOk] hops ⟨h0, trivial⟩
  have hall := runOps_present c (ops ++ [Op.tick bulkOk]) s hc hts
  have henq : enqueuedRequests (ops ++ [Op.tick bulkOk]) s.nextId =
      enqueuedRequests ops s.nextId := by
    rw [enqueuedRequests_append]
    simp [enqueuedRequests]
  have hbuf : (runOps (ops ++ [Op.tick bulkOk]) s).1.buffer = [] := by
    rw [runOps_append]
    simp [runOps, workerTick_buffer_after]
  have hflat : (runOps (ops ++ [Op.tick bulkOk]) s).2.flatten =
      enqueuedRequests ops s.nextId := by
    have h := hall.2.2.2
    rw [hbuf, hb, henq] at h
    simpa using h
  have hids := enqueuedRequests_map_id ops s.nextId
  refine ⟨hflat, hbuf, hall.2.1, hids, ?_⟩
  intro r hr
  have hnodup : (enqueuedRequests ops s.nextId).Nodup := by
    have hmapnd :
        ((enqueuedRequests ops s.nextId).map IndexRequest.id).Nodup := by
      rw [hids]
      exact List.nodup_range' _ _
    exact List.Nodup.of_map _ hmapnd
  have hcount : (enqueuedRequests ops s.nextId).count r = 1 :=
    List.count_eq_one_of_mem hnodup hr
  apply countP_mem_of_flatten_count_one
  rw [hflat]
  exact hcount

theorem search_C2_witness :
    ((runOps ([Op.enq "zero-requests" "request" 1,
        Op.enq "zero-requests" "request" 1] ++ [Op.tick (fun _ => true)])
        (⟨some ["backend-1"], [], [], 0⟩ : SearchState Nat)).2.flatten =
      enqueuedRequests [Op.enq "zero-requests" "request" 1,
        Op.enq "zero-requests" "request" 1] 0) ∧
    ((runOps ([Op.enq "zero-requests" "request" 1,
        Op.enq "zero-requests" "request" 1] ++ [Op.tick (fun _ => true)])
        (⟨some ["backend-1"], [], [], 0⟩ : SearchState Nat)).1.buffer =
      []) ∧
    ((runOps ([Op.enq "zero-requests" "request" 1,
        Op.enq "zero-requests" "request" 1] ++ [Op.tick (fun _ => true)])
        (⟨some ["backend-1"], [], [], 0⟩ :
          SearchState Nat)).1.failedBuffer = []) ∧
    ((enqueuedRequests [Op.enq "zero-requests" "request" 1,
        Op.enq "zero-requests" "request" 1] 0).map IndexRequest.id =
      List.range' 0 2) ∧
    ((runOps ([Op.enq "zero-requests" "request" 1,
        Op.enq "zero-requests" "request" 1] ++ [Op.tick (fun _ => true)])
        (⟨some ["backend-1"], [], [], 0⟩ : SearchState Nat)).2.countP
        (fun batch =>
          decide ((⟨"zero-requests", "request", 0, 1⟩ :
            IndexRequest Nat) ∈ batch)) = 1) := by
  have h := search_C2_exactly_once_delivery ["backend-1"]
    [Op.enq "zero-requests" "request" 1,
     Op.enq "zero-requests" "request" 1] (fun _ => true)
    ⟨some ["backend-1"], [], [], 0⟩ rfl rfl trivial rfl
  exact ⟨h.1, h.2.1, h.2.2.1, h.2.2.2.1, h.2.2.2.2 _ (by decide)⟩

/-- Claim C3: with the handle present and a non-empty drained batch of
size N, a tick issues at most ten bulk submissions; if every one of the
ten attempts fails, exactly ten are issued, the whole batch is appended
to the dead-letter buffer (whose length grows by exactly N) and the
ingest buffer is empty afterward; if the first success is attempt k the
loop stops right there (k+1 submissions) with nothing dead-lettered;
the handle survives the tick, and the worker keeps operating: a
subsequent enqueue followed by a successful tick delivers normally. -/
theorem search_C3_retry_bound_deadletter {α : Type} (bulkOk : Nat → Bool)
    (s : SearchState α) (c : List String) (hc : s.client = some c)
    (hb : s.buffer ≠ []) :
    ((workerTick bulkOk s).2.length ≤ 10) ∧
    ((∀ i, i < 10 → bulkOk i = false) →
      workerTick bulkOk s =
        ({ s with
            buffer := []
            failedBuffer := s.failedBuffer ++ s.buffer },
          List.replicate 10 s.buffer) ∧
      (workerTick bulkOk s).1.failedBuffer.length =
        s.failedBuffer.length + s.buffer.length) ∧
    (∀ k, k < 10 → bulkOk k = true → (∀ j, j < k → bulkOk j = false) →
      workerTick bulkOk s =
        ({ s with buffer := [] }, List.replicate (k + 1) s.buffer)) ∧
    ((workerTick bulkOk s).1.client = s.client) ∧
    (∀ (index typ : String) (d : α) (bulkOk2 : Nat → Bool),
      bulkOk2 0 = true →
      (workerTick bulkOk2
          (Index index typ d (workerTick bulkOk s).1)).2 =
        [[⟨index, typ, (workerTick bulkOk s).1.nextId, d⟩]]) := by
  have hbe : s.buffer.isEmpty = false := by
    cases hl : s.buffer with
    | nil => exact absurd hl hb
    | cons x xs => simp
  have hclient : (workerTick bulkOk s).1.client = s.client := by
    cases hflag : (retryLoop bulkOk 10 0).2 <;>
      simp [workerTick, hc, hbe, hflag]
  refine ⟨?_, ?_, ?_, hclient, ?_⟩
  · have hle := retryLoop_fst_le bulkOk 10 0
    cases hflag : (retryLoop bulkOk 10 0).2 <;>
      simp [workerTick, hc, hbe, hflag] <;> omega
  · intro hfail
    have hrl : retryLoop bulkOk 10 0 = (10, false) :=
      retryLoop_all_fail bulkOk 10 0 (fun j hj => by simpa using hfail j hj)
    constructor
    · simp [workerTick, hc, hbe, hrl]
    · simp [workerTick, hc, hbe, hrl]
  · intro k hk hks hmin
    have hrl : retryLoop bulkOk 10 0 = (k + 1, true) :=
      retryLoop_first_success bulkOk 10 k 0 hk (by simpa using hks)
        (fun j hj => by simpa using hmin j hj)
    simp [workerTick, hc, hbe, hrl]
  · intro index typ d bulkOk2 h02
    have hc1 : (workerTick bulkOk s).1.client = some c := by
      rw [hclient]; exact hc
    have hI := Index_present index typ d (workerTick bulkOk s).1 c hc1
    have ht := workerTick_first_try bulkOk2
      (Index index typ d (workerTick bulkOk s).1) c
      (by rw [hI]; exact hc1) h02
    rw [ht, hI]
    rw [workerTick_buffer_after]
    simp

theorem search_C3_witness :
    ((workerTick (fun _ => false)
      (⟨some ["a"], [⟨"zero-requests", "request", 0, 4⟩], [], 1⟩ :
        SearchState Nat)).2.length ≤ 10) ∧
    (workerTick (fun _ => false)
      (⟨some ["a"], [⟨"zero-requests", "request", 0, 4⟩], [], 1⟩ :
        SearchState Nat) =
      (⟨some ["a"], [], [⟨"zero-requests", "request", 0, 4⟩], 1⟩,
        List.replicate 10 [⟨"zero-requests", "request", 0, 4⟩])) ∧
    ((workerTick (fun _ => false)
      (⟨some ["a"], [⟨"zero-requests", "request", 0, 4⟩], [], 1⟩ :
        SearchState Nat)).1.failedBuffer.length = 0 + 1) ∧
    ((workerTick (fun _ => false)
      (⟨some ["a"], [⟨"zero-requests", "request", 0, 4⟩], [], 1⟩ :
        SearchState Nat)).1.client = some ["a"]) ∧
    ((workerTick (fun _ => true)
        (Index "zero-requests" "request" 9
          (workerTick (fun _ => false)
            (⟨some ["a"], [⟨"zero-requests", "request", 0, 4⟩], [], 1⟩ :
              SearchState Nat)).1)).2 =
      [[⟨"zero-requests", "request", 1, 9⟩]]) := by
  have h := search_C3_retry_bound_deadletter (fun _ => false)
    ⟨some ["a"], [⟨"zero-requests", "request", 0, 4⟩], [], 1⟩ ["a"] rfl
    (by decide)
  have hfail := h.2.1 (fun i _ => rfl)
  exact ⟨h.1, hfail.1, hfail.2, h.2.2.2.1,
    h.2.2.2.2 "zero-requests" "request" 9 (fun _ => true) rfl⟩

/-- Claim C4: `update` is all-or-nothing: with an empty address list it
returns no error and the absent handle (no backend call at all); any
error outcome leaves the handle absent afterward, whatever it was
before (a constructed client is discarded when provisioning fails); the
handle is present after the call exactly when every step succeeded, and
then it is bound to the given address list. -/
theorem search_C4_update_all_or_nothing {α : Type} (env : Backend)
    (addrs : List String) (s : SearchState α) :
    (addrs = [] →
      update env addrs s =
        (Except.ok (), { s with client := none }, [])) ∧
    (∀ e, (update env addrs s).1 = Except.error e →
      (update env addrs s).2.1.client = none) ∧
    ((update env addrs s).2.1.client.isSome →
      (update env addrs s).1 = Except.ok () ∧ addrs ≠ [] ∧
      (update env addrs s).2.1.client = some addrs) ∧
    (addrs ≠ [] → env.newClientErr = false →
      (putIndex env "zero-requests" "request" builtinMappings).1 =
        Except.ok () →
      update env addrs s =
        (Except.ok (), { s with client := some addrs },
          BackendCall.newClientCall addrs ::
            (putIndex env "zero-requests" "request" builtinMappings).2)) := by
  by_cases ha : addrs = []
  · subst ha
    simp [update, newClient]
  · by_cases hne : env.newClientErr
    · simp [update, newClient, ha, hne]
    · rcases hx : env.indexExists with _ | b
      · simp [update, newClient, putIndex, ha, hne, hx]
      · cases b
        · by_cases hce : env.createIndexErr <;>
            simp [update, newClient, putIndex, ha, hne, hx, hce]
        · simp [update, newClient, putIndex, ha, hne, hx]

theorem search_C4_witness :
    (update ⟨false, some true, false⟩ ["backend-1"]
        (⟨some ["old"], [], [], 0⟩ : SearchState Nat) =
      (Except.ok (), ⟨some ["backend-1"], [], [], 0⟩,
        [BackendCall.newClientCall ["backend-1"],
         BackendCall.indexExistsCall "zero-requests"])) ∧
    ((update ⟨true, some true, false⟩ ["backend-1"]
        (⟨some ["old"], [], [], 0⟩ : SearchState Nat)).2.1.client =
      none) ∧
    (update ⟨false, some true, false⟩ []
        (⟨some ["old"], [], [], 0⟩ : SearchState Nat) =
      (Except.ok (), ⟨none, [], [], 0⟩, [])) := by
  refine ⟨?_, ?_, ?_⟩
  · exact (search_C4_update_all_or_nothing ⟨false, some true, false⟩
      ["backend-1"] ⟨some ["old"], [], [], 0⟩).2.2.2 (by decide) rfl rfl
  · exact (search_C4_update_all_or_nothing ⟨true, some true, false⟩
      ["backend-1"] ⟨some ["old"], [], [], 0⟩).2.1
      "search: Failed to create elastic client" rfl
  · exact (search_C4_update_all_or_nothing ⟨false, some true, false⟩ []
      ⟨some ["old"], [], [], 0⟩).1 rfl

theorem watchIteration_no_change {α : Type} (md5Fn : String → List Nat)
    (env : Backend) (addrs : List String) (w : WatcherState α)
    (h : w.hash = hashAddresses md5Fn addrs) :
    watchIteration md5Fn env addrs w = (w, []) := by
  simp [watchIteration, h]

theorem watchRun_stable {α : Type} (md5Fn : String → List Nat)
    (addrs : List String) :
    ∀ (steps : List (Backend × List String)) (w : WatcherState α),
      (∀ p, p ∈ steps → p.2 = addrs) →
      w.hash = hashAddresses md5Fn addrs →
      watchRun md5Fn steps w = (w, []) := by
  intro steps
  induction steps with
  | nil => intro w _ _; simp [watchRun]
  | cons p steps ih =>
    intro w hsteps hw
    obtain ⟨env, paddrs⟩ := p
    have hpa : paddrs = addrs := hsteps (env, paddrs) (by simp)
    subst hpa
    have h1 := watchIteration_no_change md5Fn env paddrs w hw
    have h2 := ih w (fun q hq => hsteps q (by simp [hq])) hw
    simp [watchRun, h1, h2]

theorem update_calls_counts {α : Type} (env : Backend)
    (addrs : List String) (s : SearchState α) :
    (update env addrs s).2.2.countP isNewClientCall ≤ 1 ∧
    (update env addrs s).2.2.countP isCreateIndexCall ≤ 1 := by
  rcases env with ⟨ne, ie, ce⟩
  by_cases ha : addrs = [] <;> cases ne <;> rcases ie with _ | b <;>
    first
    | (cases b <;> cases ce <;>
        simp [update, newClient, putIndex, ha, isNewClientCall,
          isCreateIndexCall])
    | (cases ce <;>
        simp [update, newClient, putIndex, ha, isNewClientCall,
          isCreateIndexCall])

/-- Claim C6 (amended): a watcher iteration attempts a reconfiguration
exactly when the fingerprint of the configured address list differs
from the last successfully applied fingerprint (on a matching
fingerprint it does nothing and calls nothing); the fingerprint is
adopted exactly on a successful update and kept unchanged on a failed
one, so the same change is re-attempted every iteration until it
succeeds or the configuration changes again; the initial fingerprint is
that of the empty address list; and — amendment — provided the first
attempted reconfigure succeeds, every subsequent iteration with the
unchanged address list makes no further backend call, so the whole run
performs at most one client construction and at most one index-creation
call.  (Without that proviso the consequence is false: each failed
attempt constructs a client anew, see the counterexample.) -/
theorem search_C6_fingerprint_protocol {α : Type}
    (md5Fn : String → List Nat) (env : Backend) (addrs : List String)
    (w : WatcherState α) (steps : List (Backend × List String)) :
    (initialWatcherHash md5Fn = hashAddresses md5Fn []) ∧
    (w.hash = hashAddresses md5Fn addrs →
      watchIteration md5Fn env addrs w = (w, [])) ∧
    (w.hash ≠ hashAddresses md5Fn addrs →
      (watchIteration md5Fn env addrs w).2 =
        (update env addrs w.search).2.2 ∧
      (watchIteration md5Fn env addrs w).1.search =
        (update env addrs w.search).2.1 ∧
      ((update env addrs w.search).1 = Except.ok () →
        (watchIteration md5Fn env addrs w).1.hash =
          hashAddresses md5Fn addrs) ∧
      (∀ e, (update env addrs w.search).1 = Except.error e →
        (watchIteration md5Fn env addrs w).1.hash = w.hash)) ∧
    (w.hash ≠ hashAddresses md5Fn addrs →
      (update env addrs w.search).1 = Except.ok () →
      (∀ p, p ∈ steps → p.2 = addrs) →
      (watchRun md5Fn ((env, addrs) :: steps) w).2 =
        (update env addrs w.search).2.2 ∧
      (watchRun md5Fn ((env, addrs) :: steps) w).2.countP
        isNewClientCall ≤ 1 ∧
      (watchRun md5Fn ((env, addrs) :: steps) w).2.countP
        isCreateIndexCall ≤ 1) := by
  refine ⟨rfl, watchIteration_no_change md5Fn env addrs w, ?_, ?_⟩
  · intro hne
    rcases hu : update env addrs w.search with ⟨err, s', calls⟩
    rcases err with e | u
    · simp [watchIteration, hne, hu]
    · cases u
      simp [watchIteration, hne, hu]
  · intro hne hok hsteps
    rcases hu : update env addrs w.search with ⟨err, s', calls⟩
    rcases err with e | u
    · rw [hu] at hok
      exact absurd hok (by simp)
    · cases u
      have hiter : watchIteration md5Fn env addrs w =
          (⟨hashAddresses md5Fn addrs, s'⟩, calls) := by
        simp [watchIteration, hne, hu]
      have hrest := watchRun_stable md5Fn addrs steps
        ⟨hashAddresses md5Fn addrs, s'⟩ hsteps rfl
      have hrun : (watchRun md5Fn ((env, addrs) :: steps) w).2 = calls := by
        simp [watchRun, hiter, hrest]
      have hcounts := update_calls_counts env addrs w.search
      rw [hu] at hcounts
      refine ⟨by rw [hrun], ?_, ?_⟩
      · rw [hrun]
        exact hcounts.1
      · rw [hrun]
        exact hcounts.2

/-- Claim C6 counterexample: two consecutive watcher iterations with an
identical, unchanged address list ["a"], whose reconfiguration attempt
fails both times (the existence check errors after a successful client
construction), construct a backend client twice — refuting the claim
that repeated iterations with an unchanged address list perform at most
one client construction. -/
theorem search_C6_counterexample :
    (watchRun (fun str => [str.length])
      [(⟨false, none, false⟩, ["a"]), (⟨false, none, false⟩, ["a"])]
      (⟨initialWatcherHash (fun str => [str.length]),
        ⟨none, [], [], 0⟩⟩ : WatcherState Nat)).2.countP
      isNewClientCall = 2 := by decide

theorem search_C6_witness :
    (initialWatcherHash (fun str => [str.length]) =
      hashAddresses (fun str => [str.length]) []) ∧
    ((watchRun (fun str => [str.length])
      [(⟨false, some true, false⟩, ["a"]),
       (⟨false, some true, false⟩, ["a"])]
      (⟨initialWatcherHash (fun str => [str.length]),
        ⟨none, [], [], 0⟩⟩ : WatcherState Nat)).2 =
      [BackendCall.newClientCall ["a"],
       BackendCall.indexExistsCall "zero-requests"]) ∧
    ((watchRun (fun str => [str.length])
      [(⟨false, some true, false⟩, ["a"]),
       (⟨false, some true, false⟩, ["a"])]
      (⟨initialWatcherHash (fun str => [str.length]),
        ⟨none, [], [], 0⟩⟩ : WatcherState Nat)).2.countP
      isNewClientCall ≤ 1) ∧
    ((watchRun (fun str => [str.length])
      [(⟨false, some true, false⟩, ["a"]),
       (⟨false, some true, false⟩, ["a"])]
      (⟨initialWatcherHash (fun str => [str.length]),
        ⟨none, [], [], 0⟩⟩ : WatcherState Nat)).2.countP
      isCreateIndexCall ≤ 1) := by
  have h := search_C6_fingerprint_protocol (fun str => [str.length])
    ⟨false, some true, false⟩ ["a"]
    (⟨initialWatcherHash (fun str => [str.length]),
      ⟨none, [], [], 0⟩⟩ : WatcherState Nat)
    [(⟨false, some true, false⟩, ["a"])]
  have h4 := h.2.2.2 (by decide) rfl (by decide)
  exact ⟨h.1, h4.1, h4.2.1, h4.2.2⟩

end PritunlZero.Search
